import Mathlib

/-!
# Verification of the PropertyApp calculation engine

Shallow embedding of the calculation core of `src/app.py` (a buy-to-let
property calculator): the SDLT band calculator, the mortgage payment
calculator, the LTR and STR pro-formas, the ROI metrics, the summary-tab
recomputation, and the scenario engine.  Python floats are modelled as
rationals (ℚ); Python ints as ℤ.  All definitions follow the source
line-by-line.
-/

namespace PropertyApp

/-- The first four SDLT bands (upper threshold, marginal rate) from
`sdlt_btl_england` in `src/app.py`; the last band `(inf, 0.17)` is modelled
by the base case of `sdltGo`. -/
def sdltBands : List (ℚ × ℚ) :=
  [(125000, 5/100), (250000, 7/100), (925000, 10/100), (1500000, 15/100)]

/-- The band-walking loop of `sdlt_btl_england`: state is the accumulated
`tax` and the previous threshold `prev`.  The empty-list case is the final
`(float('inf'), 0.17)` band, where `min price inf = price` and the
`price <= threshold` test always breaks the loop. -/
def sdltGo (price : ℚ) : List (ℚ × ℚ) → ℚ → ℚ → ℚ
  | [], tax, prev =>
      let slice := price - prev
      if slice > 0 then tax + slice * (17/100) else tax
  | (threshold, rate) :: rest, tax, prev =>
      let slice := min price threshold - prev
      let tax' := if slice > 0 then tax + slice * rate else tax
      let prev' := if slice > 0 then threshold else prev
      if price ≤ threshold then tax' else sdltGo price rest tax' prev'

/-- `sdlt_btl_england(price)` from `src/app.py` lines 22–45. -/
def sdlt_btl_england (price : ℚ) : ℚ :=
  max (sdltGo price sdltBands 0 0) 0

/-- `monthly_mortgage_payment(principal, annual_rate, years, interest_only)`
from `src/app.py` lines 47–56.  `years` is a Python int; the exponent
`n = years * 12` is taken in ℕ (the guard returns 0 before it is ever used
with `years ≤ 0`). -/
def monthly_mortgage_payment (principal annual_rate : ℚ) (years : ℤ)
    (interest_only : Bool) : ℚ :=
  let r := annual_rate / 100 / 12
  let n : ℕ := (years * 12).toNat
  if principal ≤ 0 ∨ annual_rate < 0 ∨ years ≤ 0 then 0
  else if interest_only then principal * r
  else if r = 0 then principal / (n : ℚ)
  else principal * (r * (1 + r) ^ n) / ((1 + r) ^ n - 1)

/-- Closed form of the SDLT band walk: each band taxes the slice of the
price between its threshold and the previous one. -/
def sdltClosed (p : ℚ) : ℚ :=
  (5/100) * min p 125000
    + (7/100) * (min p 250000 - min p 125000)
    + (10/100) * (min p 925000 - min p 250000)
    + (15/100) * (min p 1500000 - min p 925000)
    + (17/100) * (p - min p 1500000)

/-- The long-term-rental inputs of tab 1 (`src/app.py` lines 95–109). -/
structure LtrInputs where
  monthly_rent : ℚ
  voids_pct : ℚ
  mgmt_pct_lt : ℚ
  maint_pct_lt : ℚ
  service_chg : ℚ
  ground_rent : ℚ
  insurance : ℚ
  other_mo : ℚ
  letting_fees : ℚ

/-- The short-term-rental inputs of tab 2 (`src/app.py` lines 170–183). -/
structure StrInputs where
  nightly : ℚ
  occupancy : ℚ
  cleaning_per_night : ℚ
  mgmt_pct_str : ℚ
  platform_pct : ℚ
  utilities_mo : ℚ
  linen_mo : ℚ
  rates_annual : ℚ

/-- `mgmt_mo` (`src/app.py` line 113). -/
def mgmt_mo (L : LtrInputs) : ℚ := L.monthly_rent * L.mgmt_pct_lt / 100

/-- `maint_mo` (line 114). -/
def maint_mo (L : LtrInputs) : ℚ := L.monthly_rent * L.maint_pct_lt / 100

/-- `voids_mo` (line 115). -/
def voids_mo (L : LtrInputs) : ℚ := L.monthly_rent * L.voids_pct / 100

/-- `fixed_mo` (line 117). -/
def fixed_mo (L : LtrInputs) : ℚ :=
  L.other_mo + (L.service_chg + L.ground_rent + L.insurance + L.letting_fees) / 12

/-- `lt_revenue_mo` (line 130). -/
def lt_revenue_mo (L : LtrInputs) : ℚ := L.monthly_rent

/-- `lt_opex_mo` (line 132). -/
def lt_opex_mo (L : LtrInputs) : ℚ :=
  mgmt_mo L + maint_mo L + voids_mo L + fixed_mo L

/-- `lt_noi_mo` (line 134). -/
def lt_noi_mo (L : LtrInputs) : ℚ := lt_revenue_mo L - lt_opex_mo L

/-- `lt_noi_yr` (line 135). -/
def lt_noi_yr (L : LtrInputs) : ℚ := lt_noi_mo L * 12

/-- `lt_mort_yr` (line 137): `monthly_payment * 12`. -/
def lt_mort_yr (monthly_payment : ℚ) : ℚ := monthly_payment * 12

/-- `lt_cash_mo` (line 138). -/
def lt_cash_mo (L : LtrInputs) (monthly_payment : ℚ) : ℚ :=
  lt_noi_mo L - monthly_payment

/-- `lt_cash_yr` (line 139). -/
def lt_cash_yr (L : LtrInputs) (monthly_payment : ℚ) : ℚ :=
  lt_cash_mo L monthly_payment * 12

/-- `nights_year` (line 185). -/
def nights_year (S : StrInputs) : ℚ := 365 * (S.occupancy / 100)

/-- `revenue_year` (line 186). -/
def revenue_year (S : StrInputs) : ℚ := S.nightly * nights_year S

/-- `mgmt_year` (line 187). -/
def mgmt_year (S : StrInputs) : ℚ := revenue_year S * S.mgmt_pct_str / 100

/-- `platform_year` (line 188). -/
def platform_year (S : StrInputs) : ℚ := revenue_year S * S.platform_pct / 100

/-- `cleaning_year` (line 189): cleaning is charged per occupied night. -/
def cleaning_year (S : StrInputs) : ℚ := S.cleaning_per_night * nights_year S

/-- `fixed_year` (line 190). -/
def fixed_year (S : StrInputs) : ℚ :=
  S.utilities_mo * 12 + S.linen_mo * 12 + S.rates_annual

/-- `opex_year` (line 192). -/
def opex_year (S : StrInputs) : ℚ :=
  mgmt_year S + platform_year S + cleaning_year S + fixed_year S

/-- `str_revenue_yr` (line 200). -/
def str_revenue_yr (S : StrInputs) : ℚ := revenue_year S

/-- `str_opex_yr` (line 202). -/
def str_opex_yr (S : StrInputs) : ℚ := opex_year S

/-- `str_noi_yr` (line 204). -/
def str_noi_yr (S : StrInputs) : ℚ := str_revenue_yr S - str_opex_yr S

/-- `str_noi_mo` (line 205): STR is annual-first, monthly = annual / 12. -/
def str_noi_mo (S : StrInputs) : ℚ := str_noi_yr S / 12

/-- `str_mort_yr` (line 207). -/
def str_mort_yr (monthly_payment : ℚ) : ℚ := monthly_payment * 12

/-- `str_cash_mo` (line 208). -/
def str_cash_mo (S : StrInputs) (monthly_payment : ℚ) : ℚ :=
  str_noi_mo S - monthly_payment

/-- `str_cash_yr` (line 209). -/
def str_cash_yr (S : StrInputs) (monthly_payment : ℚ) : ℚ :=
  str_cash_mo S monthly_payment * 12

/-- `lt_cashflow` of the summary tab (`src/app.py` lines 252–257), an
independent recomputation of the LTR monthly cashflow. -/
def lt_cashflow (L : LtrInputs) (monthly_payment : ℚ) : ℚ :=
  (L.monthly_rent -
      (L.monthly_rent * L.mgmt_pct_lt / 100 + L.monthly_rent * L.maint_pct_lt / 100 +
        L.monthly_rent * L.voids_pct / 100 +
        (L.other_mo +
          (L.service_chg + L.ground_rent + L.insurance + L.letting_fees) / 12))) -
    monthly_payment

/-- `str_cashflow_year` of the summary tab (`src/app.py` lines 259–267), an
independent recomputation of the STR annual cashflow. -/
def str_cashflow_year (S : StrInputs) (monthly_payment : ℚ) : ℚ :=
  let nights_year_sum := 365 * (S.occupancy / 100)
  let revenue_year_sum := S.nightly * nights_year_sum
  let mgmt_year_sum := revenue_year_sum * S.mgmt_pct_str / 100
  let platform_year_sum := revenue_year_sum * S.platform_pct / 100
  let cleaning_year_sum := S.cleaning_per_night * nights_year_sum
  let fixed_year_sum := S.utilities_mo * 12 + S.linen_mo * 12 + S.rates_annual
  let opex_year_sum :=
    mgmt_year_sum + platform_year_sum + cleaning_year_sum + fixed_year_sum
  revenue_year_sum - opex_year_sum - monthly_payment * 12

/-- `annual_net_lt` (`src/app.py` line 327). -/
def annual_net_lt (L : LtrInputs) (monthly_payment : ℚ) : ℚ :=
  lt_cash_mo L monthly_payment * 12

/-- `dscr_lt` (line 328); `none` models the `float('inf')` sentinel. -/
def dscr_lt (L : LtrInputs) (monthly_payment : ℚ) : Option ℚ :=
  if monthly_payment > 0 then some (lt_noi_mo L / monthly_payment) else none

/-- `payback_lt` (line 329); `none` models the `float('inf')` sentinel. -/
def payback_lt (L : LtrInputs) (monthly_payment upfront_cash : ℚ) : Option ℚ :=
  if annual_net_lt L monthly_payment > 0 then
    some (upfront_cash / annual_net_lt L monthly_payment)
  else none

/-- `occ_var_cost_per_night` (line 331): the contribution margin per
occupied night. -/
def occ_var_cost_per_night (S : StrInputs) : ℚ :=
  S.nightly * (1 - S.mgmt_pct_str / 100 - S.platform_pct / 100) -
    S.cleaning_per_night

/-- `annual_fixed_and_mort` (line 332): annual fixed costs including debt
service. -/
def annual_fixed_and_mort (S : StrInputs) (monthly_payment : ℚ) : ℚ :=
  (S.utilities_mo * 12 + S.linen_mo * 12 + S.rates_annual) +
    monthly_payment * 12

/-- `breakeven_occ` (lines 333–335): 0 unless the contribution margin is
positive, else the clamped ratio. -/
def breakeven_occ (S : StrInputs) (monthly_payment : ℚ) : ℚ :=
  if occ_var_cost_per_night S > 0 then
    min (max (annual_fixed_and_mort S monthly_payment /
        (occ_var_cost_per_night S * 365)) 0) 1
  else 0

/-- `annual_net_str` (line 337). -/
def annual_net_str (S : StrInputs) (monthly_payment : ℚ) : ℚ :=
  str_cash_mo S monthly_payment * 12

/-- `dscr_str` (line 338); `none` models the `float('inf')` sentinel. -/
def dscr_str (S : StrInputs) (monthly_payment : ℚ) : Option ℚ :=
  if monthly_payment > 0 then some (str_noi_yr S / (monthly_payment * 12))
  else none

/-- `payback_str` (line 339); `none` models the `float('inf')` sentinel. -/
def payback_str (S : StrInputs) (monthly_payment upfront_cash : ℚ) :
    Option ℚ :=
  if annual_net_str S monthly_payment > 0 then
    some (upfront_cash / annual_net_str S monthly_payment)
  else none

/-- `ltr_cashflow_with(rent_mult, cost_mult)` (`src/app.py` lines 369–376):
LTR cashflow recomputed with rent scaled by `rent_mult` and the variable
cost rates scaled by `cost_mult`. -/
def ltr_cashflow_with (L : LtrInputs) (monthly_payment rent_mult cost_mult : ℚ) : ℚ :=
  let rent := L.monthly_rent * rent_mult
  let mgmt := rent * L.mgmt_pct_lt / 100 * cost_mult
  let maint := rent * L.maint_pct_lt / 100 * cost_mult
  let voids := rent * L.voids_pct / 100 * cost_mult
  let fixed := L.other_mo +
    (L.service_chg + L.ground_rent + L.insurance + L.letting_fees) / 12
  let noi := rent - (mgmt + maint + voids + fixed)
  noi - monthly_payment

/-- `str_monthly_with(occ_pp_delta, rate_pct_delta)` (`src/app.py` lines
381–391): STR monthly cashflow recomputed with occupancy shifted by
`occ_pp_delta` points (clamped to [0, 100]) and the nightly rate scaled by
`1 + rate_pct_delta/100`. -/
def str_monthly_with (S : StrInputs) (monthly_payment occ_pp_delta rate_pct_delta : ℚ) : ℚ :=
  let occ := min (max (S.occupancy + occ_pp_delta) 0) 100
  let nights := 365 * (occ / 100)
  let rev := S.nightly * (1 + rate_pct_delta / 100) * nights
  let mgmt_s := rev * S.mgmt_pct_str / 100
  let plat_s := rev * S.platform_pct / 100
  let clean_s := S.cleaning_per_night * nights
  let fixed_s := S.utilities_mo * 12 + S.linen_mo * 12 + S.rates_annual
  let noi_s := rev - (mgmt_s + plat_s + clean_s + fixed_s)
  let cf_year := noi_s - monthly_payment * 12
  cf_year / 12

/-- Modelled from the spec: the *per-stay* cleaning-cost policy
`costPerStay × (occupiedNightsPerYear / averageStayNights)` of §4.3; the
code in `src/app.py` has no such policy, no `averageStayNights` input and
no cleaning-policy configuration field. -/
def cleaning_year_per_stay (costPerStay avgStayNights occupiedNights : ℚ) : ℚ :=
  costPerStay * (occupiedNights / avgStayNights)

/-- C3: The tax-band calculator returns exactly 0 for price 0, 6250 for
125000, 15000 for 250000, and 82500 for 925000, per the marginal-band
schedule (125000, 5%), (250000, 7%), (925000, 10%), (1500000, 15%),
(∞, 17%). -/
theorem sdlt_values :
    sdlt_btl_england 0 = 0 ∧ sdlt_btl_england 125000 = 6250 ∧
    sdlt_btl_england 250000 = 15000 ∧ sdlt_btl_england 925000 = 82500 := by
  refine ⟨?_, ?_, ?_, ?_⟩ <;> norm_num [sdlt_btl_england, sdltGo, sdltBands]

/-- C6: every degenerate input (principal ≤ 0, or negative rate, or
term ≤ 0) yields exactly 0 in both repayment and interest-only modes,
with no error raised. -/
theorem mortgage_degenerate_zero (principal annual_rate : ℚ) (years : ℤ)
    (io : Bool) (h : principal ≤ 0 ∨ annual_rate < 0 ∨ years ≤ 0) :
    monthly_mortgage_payment principal annual_rate years io = 0 := by
  unfold monthly_mortgage_payment
  simp only [if_pos h]

/-- Witness for `mortgage_degenerate_zero` at the spec's example
`computeDebtService(-1, 5, 25, Repayment) = 0`. -/
theorem mortgage_degenerate_zero_witness :
    monthly_mortgage_payment (-1) 5 25 false = 0 :=
  mortgage_degenerate_zero (-1) 5 25 false (Or.inl (by norm_num))

lemma min_sub_min_mono {p q s t : ℚ} (hpq : p ≤ q) (hst : s ≤ t) :
    min p t - min p s ≤ min q t - min q s := by
  simp only [min_def]
  split_ifs <;> linarith

lemma min_sub_le {p q t : ℚ} (hpq : p ≤ q) :
    min q t - min p t ≤ q - p := by
  simp only [min_def]
  split_ifs <;> linarith

lemma sdlt_eq_closed {p : ℚ} (hp : 0 ≤ p) :
    sdlt_btl_england p = sdltClosed p := by
  rcases le_or_lt p 125000 with h1 | h1
  · have e1 : min p 125000 = p := min_eq_left h1
    have e2 : min p 250000 = p := min_eq_left (by linarith)
    have e3 : min p 925000 = p := min_eq_left (by linarith)
    have e4 : min p 1500000 = p := min_eq_left (by linarith)
    norm_num [sdlt_btl_england, sdltGo, sdltBands, sdltClosed, e1, e2, e3, e4,
      h1, max_def]
    split_ifs <;> linarith
  · have f1 : ¬ p ≤ 125000 := not_le.mpr h1
    have e1 : min p 125000 = 125000 := min_eq_right h1.le
    rcases le_or_lt p 250000 with h2 | h2
    · have e2 : min p 250000 = p := min_eq_left h2
      have e3 : min p 925000 = p := min_eq_left (by linarith)
      have e4 : min p 1500000 = p := min_eq_left (by linarith)
      norm_num [sdlt_btl_england, sdltGo, sdltBands, sdltClosed, e1, e2, e3, e4,
        f1, h2, sub_pos, h1, max_def]
      split_ifs <;> linarith
    · have f2 : ¬ p ≤ 250000 := not_le.mpr h2
      have e2 : min p 250000 = 250000 := min_eq_right h2.le
      rcases le_or_lt p 925000 with h3 | h3
      · have e3 : min p 925000 = p := min_eq_left h3
        have e4 : min p 1500000 = p := min_eq_left (by linarith)
        norm_num [sdlt_btl_england, sdltGo, sdltBands, sdltClosed, e1, e2, e3,
          e4, f1, f2, h3, sub_pos, h1, h2, max_def]
        split_ifs <;> linarith
      · have f3 : ¬ p ≤ 925000 := not_le.mpr h3
        have e3 : min p 925000 = 925000 := min_eq_right h3.le
        rcases le_or_lt p 1500000 with h4 | h4
        · have e4 : min p 1500000 = p := min_eq_left h4
          norm_num [sdlt_btl_england, sdltGo, sdltBands, sdltClosed, e1, e2,
            e3, e4, f1, f2, f3, h4, sub_pos, h1, h2, h3, max_def]
          split_ifs <;> linarith
        · have f4 : ¬ p ≤ 1500000 := not_le.mpr h4
          have e4 : min p 1500000 = 1500000 := min_eq_right h4.le
          norm_num [sdlt_btl_england, sdltGo, sdltBands, sdltClosed, e1, e2,
            e3, e4, f1, f2, f3, f4, sub_pos, h1, h2, h3, h4, max_def]
          split_ifs <;> linarith

/-- C4: for 0 ≤ p₁ ≤ p₂ the tax is monotonically non-decreasing, and it is
17/100-Lipschitz (the marginal top rate), which is the quantitative form of
continuity at every band boundary: the tax just above a threshold differs
from the tax at the threshold by at most 17% of the price difference, so
there is no cliff effect. -/
theorem sdlt_monotone_lipschitz (p₁ p₂ : ℚ) (h0 : 0 ≤ p₁) (h12 : p₁ ≤ p₂) :
    sdlt_btl_england p₁ ≤ sdlt_btl_england p₂ ∧
    sdlt_btl_england p₂ - sdlt_btl_england p₁ ≤ (17/100) * (p₂ - p₁) := by
  have h0' : 0 ≤ p₂ := le_trans h0 h12
  rw [sdlt_eq_closed h0, sdlt_eq_closed h0']
  have d1 : min p₁ 125000 ≤ min p₂ 125000 := min_le_min h12 le_rfl
  have d2 : min p₁ 250000 - min p₁ 125000 ≤ min p₂ 250000 - min p₂ 125000 :=
    min_sub_min_mono h12 (by norm_num)
  have d3 : min p₁ 925000 - min p₁ 250000 ≤ min p₂ 925000 - min p₂ 250000 :=
    min_sub_min_mono h12 (by norm_num)
  have d4 : min p₁ 1500000 - min p₁ 925000 ≤ min p₂ 1500000 - min p₂ 925000 :=
    min_sub_min_mono h12 (by norm_num)
  have d5 : min p₂ 1500000 - min p₁ 1500000 ≤ p₂ - p₁ := min_sub_le h12
  constructor <;> · simp only [sdltClosed]; linarith

/-- Witness for `sdlt_monotone_lipschitz` just above the 125000 boundary. -/
theorem sdlt_monotone_lipschitz_witness :
    sdlt_btl_england 125000 ≤ sdlt_btl_england 125001 ∧
    sdlt_btl_england 125001 - sdlt_btl_england 125000 ≤
      (17/100) * ((125001 : ℚ) - 125000) :=
  sdlt_monotone_lipschitz 125000 125001 (by norm_num) (by norm_num)

/-- C5: for principal > 0, rate ≥ 0, term ≥ 1, the payment equals
`principal * (rate/100/12)` in interest-only mode, `principal / (term*12)`
in repayment mode at zero rate, and the annuity formula
`principal * r * (1+r)^n / ((1+r)^n - 1)` in repayment mode at nonzero
rate; in particular `payment(120000, 0, 10, Repayment) = 1000` exactly and
`payment(100000, 5, 25, InterestOnly) = 100000 * 5 / 1200`. -/
theorem mortgage_payment_formulas (principal annual_rate : ℚ) (years : ℤ)
    (hp : 0 < principal) (hr : 0 ≤ annual_rate) (hy : 1 ≤ years) :
    monthly_mortgage_payment principal annual_rate years true =
      principal * (annual_rate / 100 / 12) ∧
    (annual_rate = 0 →
      monthly_mortgage_payment principal annual_rate years false =
        principal / ((years : ℚ) * 12)) ∧
    (annual_rate ≠ 0 →
      monthly_mortgage_payment principal annual_rate years false =
        principal * (annual_rate / 100 / 12 *
            (1 + annual_rate / 100 / 12) ^ (years * 12).toNat) /
          ((1 + annual_rate / 100 / 12) ^ (years * 12).toNat - 1)) ∧
    monthly_mortgage_payment 120000 0 10 false = 1000 ∧
    monthly_mortgage_payment 100000 5 25 true = 100000 * 5 / 1200 := by
  have hguard : ¬(principal ≤ 0 ∨ annual_rate < 0 ∨ years ≤ 0) := by
    push_neg; exact ⟨hp, hr, by omega⟩
  refine ⟨?_, ?_, ?_, ?_, ?_⟩
  · unfold monthly_mortgage_payment
    rw [if_neg hguard]
    norm_num
  · intro h0
    subst h0
    have hcast : (((years * 12).toNat : ℕ) : ℚ) = (years : ℚ) * 12 := by
      have h : ((years * 12).toNat : ℤ) = years * 12 := Int.toNat_of_nonneg (by omega)
      exact_mod_cast h
    unfold monthly_mortgage_payment
    rw [if_neg hguard]
    norm_num [hcast]
  · intro h0
    have hrne : ¬(annual_rate / 100 / 12 = 0) := by
      simp only [div_eq_zero_iff]
      push_neg
      exact ⟨⟨h0, by norm_num⟩, by norm_num⟩
    unfold monthly_mortgage_payment
    rw [if_neg hguard, if_neg (by simp), if_neg hrne]
  · have h120 : ((120 : ℤ).toNat : ℕ) = 120 := rfl
    norm_num [monthly_mortgage_payment, h120]
  · norm_num [monthly_mortgage_payment]

/-- Witness for `mortgage_payment_formulas` at principal 120000, rate 0,
term 10 years. -/
theorem mortgage_payment_formulas_witness :
    monthly_mortgage_payment 120000 0 (10 : ℤ) true = 120000 * (0 / 100 / 12) ∧
    ((0 : ℚ) = 0 →
      monthly_mortgage_payment 120000 0 (10 : ℤ) false =
        120000 / (((10 : ℤ) : ℚ) * 12)) ∧
    ((0 : ℚ) ≠ 0 →
      monthly_mortgage_payment 120000 0 (10 : ℤ) false =
        120000 * (0 / 100 / 12 *
            (1 + 0 / 100 / 12) ^ ((10 : ℤ) * 12).toNat) /
          ((1 + 0 / 100 / 12) ^ ((10 : ℤ) * 12).toNat - 1)) ∧
    monthly_mortgage_payment 120000 0 10 false = 1000 ∧
    monthly_mortgage_payment 100000 5 25 true = 100000 * 5 / 1200 :=
  mortgage_payment_formulas 120000 0 10 (by norm_num) (by norm_num) (by norm_num)

/-- C8: in both regimes the reported annual cashflow equals the reported
annual NOI minus the reported annual debt service exactly, even though the
LTR tab is monthly-first (annual = monthly × 12) and the STR tab is
annual-first (monthly = annual / 12). -/
theorem cashflow_identity (L : LtrInputs) (S : StrInputs)
    (monthly_payment : ℚ) :
    lt_cash_yr L monthly_payment = lt_noi_yr L - lt_mort_yr monthly_payment ∧
    str_cash_yr S monthly_payment =
      str_noi_yr S - str_mort_yr monthly_payment := by
  constructor
  · simp only [lt_cash_yr, lt_cash_mo, lt_noi_yr, lt_mort_yr]
    ring
  · simp only [str_cash_yr, str_cash_mo, str_noi_mo, str_mort_yr]
    ring

/-- Witness for `cashflow_identity` at the source's default inputs
(rent 800, voids 5 %, management 10 %, maintenance 5 %, insurance 250;
nightly 100, occupancy 60 %, cleaning 10, management 15 %, platform 3 %,
utilities 250, linen 60; payment 500). -/
theorem cashflow_identity_witness :
    lt_cash_yr ⟨800, 5, 10, 5, 0, 0, 250, 0, 0⟩ 500 =
      lt_noi_yr ⟨800, 5, 10, 5, 0, 0, 250, 0, 0⟩ - lt_mort_yr 500 ∧
    str_cash_yr ⟨100, 60, 10, 15, 3, 250, 60, 0⟩ 500 =
      str_noi_yr ⟨100, 60, 10, 15, 3, 250, 60, 0⟩ - str_mort_yr 500 :=
  cashflow_identity ⟨800, 5, 10, 5, 0, 0, 250, 0, 0⟩
    ⟨100, 60, 10, 15, 3, 250, 60, 0⟩ 500

/-- C10: the summary tab's independently recomputed cashflows agree exactly
with the per-regime tab results: the recomputed LTR monthly cashflow equals
`lt_cash_mo` and the recomputed STR annual cashflow equals `str_cash_yr`;
the two derivation code paths are extensionally equal. -/
theorem summary_matches_tabs (L : LtrInputs) (S : StrInputs)
    (monthly_payment : ℚ) :
    lt_cashflow L monthly_payment = lt_cash_mo L monthly_payment ∧
    str_cashflow_year S monthly_payment = str_cash_yr S monthly_payment := by
  constructor
  · simp only [lt_cashflow, lt_cash_mo, lt_noi_mo, lt_revenue_mo, lt_opex_mo,
      mgmt_mo, maint_mo, voids_mo, fixed_mo]
  · simp only [str_cashflow_year, str_cash_yr, str_cash_mo, str_noi_mo,
      str_noi_yr, str_revenue_yr, str_opex_yr, revenue_year, opex_year,
      mgmt_year, platform_year, cleaning_year, fixed_year, nights_year]
    ring

/-- Witness for `summary_matches_tabs` at the source's default inputs. -/
theorem summary_matches_tabs_witness :
    lt_cashflow ⟨800, 5, 10, 5, 0, 0, 250, 0, 0⟩ 500 =
      lt_cash_mo ⟨800, 5, 10, 5, 0, 0, 250, 0, 0⟩ 500 ∧
    str_cashflow_year ⟨100, 60, 10, 15, 3, 250, 60, 0⟩ 500 =
      str_cash_yr ⟨100, 60, 10, 15, 3, 250, 60, 0⟩ 500 :=
  summary_matches_tabs ⟨800, 5, 10, 5, 0, 0, 250, 0, 0⟩
    ⟨100, 60, 10, 15, 3, 250, 60, 0⟩ 500

/-- C2: break-even occupancy is 0 exactly when the contribution margin per
occupied night `m = nightlyRate * (1 - (managementPct + platformFeePct)/100)
- cleaningCostPerNight` is non-positive, is the clamp of
`annualFixedCostsIncludingDebtService / (m * 365)` to [0, 1] when `m > 0`,
and always lies within [0, 1]. -/
theorem breakeven_occ_spec (S : StrInputs) (monthly_payment : ℚ) :
    ((occ_var_cost_per_night S ≤ 0 ∧ breakeven_occ S monthly_payment = 0) ∨
      (0 < occ_var_cost_per_night S ∧
        breakeven_occ S monthly_payment =
          min (max (annual_fixed_and_mort S monthly_payment /
              (occ_var_cost_per_night S * 365)) 0) 1)) ∧
    occ_var_cost_per_night S =
      S.nightly * (1 - (S.mgmt_pct_str + S.platform_pct) / 100) -
        S.cleaning_per_night ∧
    0 ≤ breakeven_occ S monthly_payment ∧
    breakeven_occ S monthly_payment ≤ 1 := by
  refine ⟨?_, ?_, ?_, ?_⟩
  · rcases le_or_lt (occ_var_cost_per_night S) 0 with h | h
    · exact Or.inl ⟨h, by simp [breakeven_occ, not_lt.mpr h]⟩
    · exact Or.inr ⟨h, by simp [breakeven_occ, h]⟩
  · simp only [occ_var_cost_per_night]
    ring
  · unfold breakeven_occ
    split_ifs
    · exact le_min (le_max_right _ _) (by norm_num)
    · exact le_refl 0
  · unfold breakeven_occ
    split_ifs
    · exact min_le_right _ _
    · norm_num

/-- Witness for `breakeven_occ_spec` at the source's default STR inputs and
payment 500. -/
theorem breakeven_occ_spec_witness :
    ((occ_var_cost_per_night ⟨100, 60, 10, 15, 3, 250, 60, 0⟩ ≤ 0 ∧
        breakeven_occ ⟨100, 60, 10, 15, 3, 250, 60, 0⟩ 500 = 0) ∨
      (0 < occ_var_cost_per_night ⟨100, 60, 10, 15, 3, 250, 60, 0⟩ ∧
        breakeven_occ ⟨100, 60, 10, 15, 3, 250, 60, 0⟩ 500 =
          min (max (annual_fixed_and_mort ⟨100, 60, 10, 15, 3, 250, 60, 0⟩ 500 /
              (occ_var_cost_per_night ⟨100, 60, 10, 15, 3, 250, 60, 0⟩ * 365)) 0)
            1)) ∧
    occ_var_cost_per_night ⟨100, 60, 10, 15, 3, 250, 60, 0⟩ =
      100 * (1 - ((15 : ℚ) + 3) / 100) - 10 ∧
    0 ≤ breakeven_occ ⟨100, 60, 10, 15, 3, 250, 60, 0⟩ 500 ∧
    breakeven_occ ⟨100, 60, 10, 15, 3, 250, 60, 0⟩ 500 ≤ 1 :=
  breakeven_occ_spec ⟨100, 60, 10, 15, 3, 250, 60, 0⟩ 500

/-- C7: DSCR is the annual-NOI / annual-debt-service ratio with the infinity
sentinel (`none`) exactly when the divisor is non-positive, and payback is
upfront cash / net annual cashflow with the sentinel exactly when the net
annual cashflow is non-positive; all four metrics are total functions, so
no division fault can occur. -/
theorem roi_sentinels (L : LtrInputs) (S : StrInputs)
    (monthly_payment upfront_cash : ℚ) :
    dscr_lt L monthly_payment =
      (if 0 < lt_mort_yr monthly_payment then
        some (lt_noi_yr L / lt_mort_yr monthly_payment) else none) ∧
    payback_lt L monthly_payment upfront_cash =
      (if 0 < lt_cash_yr L monthly_payment then
        some (upfront_cash / lt_cash_yr L monthly_payment) else none) ∧
    dscr_str S monthly_payment =
      (if 0 < str_mort_yr monthly_payment then
        some (str_noi_yr S / str_mort_yr monthly_payment) else none) ∧
    payback_str S monthly_payment upfront_cash =
      (if 0 < str_cash_yr S monthly_payment then
        some (upfront_cash / str_cash_yr S monthly_payment) else none) := by
  refine ⟨?_, ?_, ?_, ?_⟩
  · have hiff : 0 < lt_mort_yr monthly_payment ↔ monthly_payment > 0 := by
      simp only [lt_mort_yr]
      constructor <;> intro h <;> linarith
    rcases lt_or_le 0 monthly_payment with h | h
    · rw [dscr_lt, if_pos h, if_pos (hiff.mpr h)]
      congr 1
      simp only [lt_noi_yr, lt_mort_yr]
      rw [mul_comm (lt_noi_mo L) 12, mul_comm monthly_payment 12,
        mul_div_mul_left _ _ (by norm_num : (12 : ℚ) ≠ 0)]
    · rw [dscr_lt, if_neg (not_lt.mpr h), if_neg (fun hc => absurd (hiff.mp hc) (not_lt.mpr h))]
  · have he : lt_cash_yr L monthly_payment = annual_net_lt L monthly_payment := by
      simp only [lt_cash_yr, annual_net_lt]
    rw [payback_lt, he]
  · have hiff : 0 < str_mort_yr monthly_payment ↔ monthly_payment > 0 := by
      simp only [str_mort_yr]
      constructor <;> intro h <;> linarith
    rcases lt_or_le 0 monthly_payment with h | h
    · rw [dscr_str, if_pos h, if_pos (hiff.mpr h)]
      simp only [str_mort_yr]
    · rw [dscr_str, if_neg (not_lt.mpr h), if_neg (fun hc => absurd (hiff.mp hc) (not_lt.mpr h))]
  · have he : str_cash_yr S monthly_payment = annual_net_str S monthly_payment := by
      simp only [str_cash_yr, annual_net_str]
    rw [payback_str, he]

/-- Witness for `roi_sentinels` at the source's default inputs, payment 0
(both sentinels fire on the DSCR side conditions being false). -/
theorem roi_sentinels_witness :
    dscr_lt ⟨800, 5, 10, 5, 0, 0, 250, 0, 0⟩ 0 =
      (if 0 < lt_mort_yr 0 then
        some (lt_noi_yr ⟨800, 5, 10, 5, 0, 0, 250, 0, 0⟩ / lt_mort_yr 0)
      else none) ∧
    payback_lt ⟨800, 5, 10, 5, 0, 0, 250, 0, 0⟩ 0 30000 =
      (if 0 < lt_cash_yr ⟨800, 5, 10, 5, 0, 0, 250, 0, 0⟩ 0 then
        some (30000 / lt_cash_yr ⟨800, 5, 10, 5, 0, 0, 250, 0, 0⟩ 0)
      else none) ∧
    dscr_str ⟨100, 60, 10, 15, 3, 250, 60, 0⟩ 0 =
      (if 0 < str_mort_yr 0 then
        some (str_noi_yr ⟨100, 60, 10, 15, 3, 250, 60, 0⟩ / str_mort_yr 0)
      else none) ∧
    payback_str ⟨100, 60, 10, 15, 3, 250, 60, 0⟩ 0 30000 =
      (if 0 < str_cash_yr ⟨100, 60, 10, 15, 3, 250, 60, 0⟩ 0 then
        some (30000 / str_cash_yr ⟨100, 60, 10, 15, 3, 250, 60, 0⟩ 0)
      else none) :=
  roi_sentinels ⟨800, 5, 10, 5, 0, 0, 250, 0, 0⟩
    ⟨100, 60, 10, 15, 3, 250, 60, 0⟩ 0 30000

/-- Counterexample to C1 as stated: with nightly rate 5, occupancy 60 %,
cleaning 10 per occupied night, no fees, fixed costs or debt service, and
an occupancy delta of 10 points (rate delta 0), the STR worst scenario has
a strictly higher cashflow than the base — cleaning cost per occupied
night exceeds the net nightly revenue, so losing nights helps. -/
theorem scenario_ordering_counterexample :
    str_cash_mo ⟨5, 60, 10, 0, 0, 0, 0, 0⟩ 0 <
      str_monthly_with ⟨5, 60, 10, 0, 0, 0, 0, 0⟩ 0 (-10) (-0) := by
  norm_num [str_cash_mo, str_noi_mo, str_noi_yr, str_revenue_yr, str_opex_yr,
    revenue_year, opex_year, mgmt_year, platform_year, cleaning_year,
    fixed_year, nights_year, str_monthly_with]

set_option maxHeartbeats 1600000 in
/-- C1 (amended): within the UI-enforced input ranges, the scenario engine's
outputs satisfy worst ≤ base ≤ best for the LTR regime unconditionally, and
for the STR regime provided the worst-case contribution margin per occupied
night, `nightly * (1 - mgmtPct/100 - platformPct/100) * (1 - rateDelta/100)
- cleaningPerNight`, is non-negative (the counterexample above shows the
ordering fails without this proviso, because cleaning cost scales with
occupied nights). -/
theorem scenario_ordering_amended (L : LtrInputs) (S : StrInputs)
    (monthly_payment occ_delta rate_delta rent_delta cost_delta : ℚ)
    (hR : 0 ≤ L.monthly_rent)
    (hv0 : 0 ≤ L.voids_pct) (hv1 : L.voids_pct ≤ 50)
    (hm0 : 0 ≤ L.mgmt_pct_lt) (hm1 : L.mgmt_pct_lt ≤ 25)
    (hmt0 : 0 ≤ L.maint_pct_lt) (hmt1 : L.maint_pct_lt ≤ 25)
    (hN : 0 ≤ S.nightly)
    (hocc0 : 0 ≤ S.occupancy) (hocc1 : S.occupancy ≤ 100)
    (hcc : 0 ≤ S.cleaning_per_night)
    (hsm0 : 0 ≤ S.mgmt_pct_str) (hsm1 : S.mgmt_pct_str ≤ 50)
    (hpl0 : 0 ≤ S.platform_pct) (hpl1 : S.platform_pct ≤ 20)
    (hod0 : 0 ≤ occ_delta) (hod1 : occ_delta ≤ 30)
    (hrd0 : 0 ≤ rate_delta) (hrd1 : rate_delta ≤ 30)
    (hdr0 : 0 ≤ rent_delta) (hdr1 : rent_delta ≤ 30)
    (hdc0 : 0 ≤ cost_delta) (hdc1 : cost_delta ≤ 30)
    (hM : 0 ≤ S.nightly * (1 - S.mgmt_pct_str / 100 - S.platform_pct / 100) *
        (1 - rate_delta / 100) - S.cleaning_per_night) :
    ltr_cashflow_with L monthly_payment (1 - rent_delta / 100)
        (1 + cost_delta / 100) ≤ lt_cash_mo L monthly_payment ∧
    lt_cash_mo L monthly_payment ≤
      ltr_cashflow_with L monthly_payment (1 + rent_delta / 100)
        (1 - cost_delta / 100) ∧
    str_monthly_with S monthly_payment (-occ_delta) (-rate_delta) ≤
      str_cash_mo S monthly_payment ∧
    str_cash_mo S monthly_payment ≤
      str_monthly_with S monthly_payment occ_delta rate_delta := by
  have t1 : 0 ≤ L.monthly_rent * (rent_delta *
      (100 - (L.mgmt_pct_lt + L.maint_pct_lt + L.voids_pct))) :=
    mul_nonneg hR (mul_nonneg hdr0 (by linarith))
  have hk : 0 ≤ 1 - S.mgmt_pct_str / 100 - S.platform_pct / 100 := by linarith
  have hNk : 0 ≤ S.nightly * (1 - S.mgmt_pct_str / 100 - S.platform_pct / 100) :=
    mul_nonneg hN hk
  refine ⟨?_, ?_, ?_, ?_⟩
  · have t2 : 0 ≤ L.monthly_rent * ((100 - rent_delta) *
        ((L.mgmt_pct_lt + L.maint_pct_lt + L.voids_pct) * cost_delta)) :=
      mul_nonneg hR (mul_nonneg (by linarith)
        (mul_nonneg (by linarith) hdc0))
    simp only [ltr_cashflow_with, lt_cash_mo, lt_noi_mo, lt_revenue_mo,
      lt_opex_mo, mgmt_mo, maint_mo, voids_mo, fixed_mo]
    nlinarith [t1, t2]
  · have t2 : 0 ≤ L.monthly_rent * ((100 + rent_delta) *
        ((L.mgmt_pct_lt + L.maint_pct_lt + L.voids_pct) * cost_delta)) :=
      mul_nonneg hR (mul_nonneg (by linarith)
        (mul_nonneg (by linarith) hdc0))
    simp only [ltr_cashflow_with, lt_cash_mo, lt_noi_mo, lt_revenue_mo,
      lt_opex_mo, mgmt_mo, maint_mo, voids_mo, fixed_mo]
    nlinarith [t1, t2]
  · have how1 : min (max (S.occupancy + -occ_delta) 0) 100 ≤ S.occupancy :=
      le_trans (min_le_left _ _)
        (max_le (by linarith) hocc0)
    have how0 : (0 : ℚ) ≤ min (max (S.occupancy + -occ_delta) 0) 100 :=
      le_min (le_max_right _ _) (by norm_num)
    have hMb : S.nightly * (1 - S.mgmt_pct_str / 100 - S.platform_pct / 100) *
        (1 + -rate_delta / 100) - S.cleaning_per_night ≤
        S.nightly * (1 - S.mgmt_pct_str / 100 - S.platform_pct / 100) -
          S.cleaning_per_night := by nlinarith [mul_nonneg hNk hrd0]
    have hMw : 0 ≤ S.nightly * (1 - S.mgmt_pct_str / 100 - S.platform_pct / 100) *
        (1 + -rate_delta / 100) - S.cleaning_per_night := by
      have h : (1 : ℚ) + -rate_delta / 100 = 1 - rate_delta / 100 := by ring
      rw [h]; exact hM
    have hnw : 365 * (min (max (S.occupancy + -occ_delta) 0) 100 / 100) ≤
        365 * (S.occupancy / 100) := by linarith
    have hnb0 : (0 : ℚ) ≤ 365 * (S.occupancy / 100) := by linarith
    have step := mul_le_mul hnw hMb hMw hnb0
    simp only [str_monthly_with, str_cash_mo, str_noi_mo, str_noi_yr,
      str_revenue_yr, str_opex_yr, revenue_year, opex_year, mgmt_year,
      platform_year, cleaning_year, fixed_year, nights_year]
    linarith [step]
  · have hob1 : S.occupancy ≤ min (max (S.occupancy + occ_delta) 0) 100 :=
      le_min (le_trans (by linarith) (le_max_left _ _)) hocc1
    have hMb0 : 0 ≤ S.nightly * (1 - S.mgmt_pct_str / 100 - S.platform_pct / 100) -
        S.cleaning_per_night := by nlinarith [mul_nonneg hNk hrd0]
    have hMbest : S.nightly * (1 - S.mgmt_pct_str / 100 - S.platform_pct / 100) -
        S.cleaning_per_night ≤
        S.nightly * (1 - S.mgmt_pct_str / 100 - S.platform_pct / 100) *
          (1 + rate_delta / 100) - S.cleaning_per_night := by
      nlinarith [mul_nonneg hNk hrd0]
    have hnbest0 : (0 : ℚ) ≤ 365 * (min (max (S.occupancy + occ_delta) 0) 100 / 100) := by
      have h := le_trans hocc0 hob1
      linarith
    have hnb : 365 * (S.occupancy / 100) ≤
        365 * (min (max (S.occupancy + occ_delta) 0) 100 / 100) := by linarith
    have step := mul_le_mul hnb hMbest hMb0 hnbest0
    simp only [str_monthly_with, str_cash_mo, str_noi_mo, str_noi_yr,
      str_revenue_yr, str_opex_yr, revenue_year, opex_year, mgmt_year,
      platform_year, cleaning_year, fixed_year, nights_year]
    linarith [step]

/-- Witness for `scenario_ordering_amended` at the source's default inputs
(rent 800, voids 5, management 10, maintenance 5; nightly 100, occupancy 60,
cleaning 10, management 15, platform 3; payment 500; all deltas 10). -/
theorem scenario_ordering_amended_witness :
    ltr_cashflow_with ⟨800, 5, 10, 5, 0, 0, 250, 0, 0⟩ 500 (1 - 10 / 100)
        (1 + 10 / 100) ≤ lt_cash_mo ⟨800, 5, 10, 5, 0, 0, 250, 0, 0⟩ 500 ∧
    lt_cash_mo ⟨800, 5, 10, 5, 0, 0, 250, 0, 0⟩ 500 ≤
      ltr_cashflow_with ⟨800, 5, 10, 5, 0, 0, 250, 0, 0⟩ 500 (1 + 10 / 100)
        (1 - 10 / 100) ∧
    str_monthly_with ⟨100, 60, 10, 15, 3, 250, 60, 0⟩ 500 (-10) (-10) ≤
      str_cash_mo ⟨100, 60, 10, 15, 3, 250, 60, 0⟩ 500 ∧
    str_cash_mo ⟨100, 60, 10, 15, 3, 250, 60, 0⟩ 500 ≤
      str_monthly_with ⟨100, 60, 10, 15, 3, 250, 60, 0⟩ 500 10 10 :=
  scenario_ordering_amended ⟨800, 5, 10, 5, 0, 0, 250, 0, 0⟩
    ⟨100, 60, 10, 15, 3, 250, 60, 0⟩ 500 10 10 10 10
    (by norm_num) (by norm_num) (by norm_num) (by norm_num) (by norm_num)
    (by norm_num) (by norm_num) (by norm_num) (by norm_num) (by norm_num)
    (by norm_num) (by norm_num) (by norm_num) (by norm_num) (by norm_num)
    (by norm_num) (by norm_num) (by norm_num) (by norm_num) (by norm_num)
    (by norm_num) (by norm_num) (by norm_num) (by norm_num)

/-- Counterexample to C9 as stated: at the default STR inputs (cleaning 10,
occupancy 60 % → 219 occupied nights) the code's cleaning cost is the
per-occupied-night value 2190 and differs from the per-stay value 1095
(cost 10 per stay, average stay 2 nights); no configuration can reproduce
the per-stay policy because the code has no such field. -/
theorem cleaning_policy_counterexample :
    cleaning_year ⟨100, 60, 10, 15, 3, 250, 60, 0⟩ = 2190 ∧
    cleaning_year_per_stay 10 2 (nights_year ⟨100, 60, 10, 15, 3, 250, 60, 0⟩) =
      1095 ∧
    (2190 : ℚ) ≠ 1095 := by
  norm_num [cleaning_year, cleaning_year_per_stay, nights_year]

/-- C9 (amended): the STR pro-forma's cleaning cost follows the fixed
per-occupied-night policy `costPerNight × occupiedNightsPerYear` —
equivalently, the per-stay policy specialised to an average stay of one
night — and is not selectable. -/
theorem cleaning_per_night_amended (S : StrInputs) :
    cleaning_year S =
      cleaning_year_per_stay S.cleaning_per_night 1 (nights_year S) := by
  simp [cleaning_year, cleaning_year_per_stay]

/-- Witness for `cleaning_per_night_amended` at the default STR inputs. -/
theorem cleaning_per_night_amended_witness :
    cleaning_year ⟨100, 60, 10, 15, 3, 250, 60, 0⟩ =
      cleaning_year_per_stay 10 1 (nights_year ⟨100, 60, 10, 15, 3, 250, 60, 0⟩) :=
  cleaning_per_night_amended ⟨100, 60, 10, 15, 3, 250, 60, 0⟩

end PropertyApp
